import Mathlib

set_option autoImplicit false

/-!
Verification development for the sopify SOP export engine.

The definitions below are a shallow embedding of the TypeScript source:
the SOP data model (`src/types`), the four export emitters and the export
dispatcher (the export API route), the PDF pagination helpers, and the
SOP-generation route (prompt step counts, fallback SOP, model call).
Strings are modelled by Lean `String`; JavaScript `x || d` defaulting and
truthiness are modelled explicitly (`jsOr`, `jsTruthy`); `toUpperCase` /
`toLowerCase` are modelled as per-character ASCII maps.
-/

/-- One actionable SOP item, from the `SOPStep` interface.  `estimatedTime`,
`responsible` and `priority` are optional at the emitters (the emitters guard
each of them), so they are modelled as `Option String`. -/
structure SOPStep where
  id : String
  title : String
  description : String
  estimatedTime : Option String
  responsible : Option String
  priority : Option String
  completed : Option Bool
deriving Repr, DecidableEq

/-- The generated procedure record, from the `SOP` interface.  `severity` is
kept as a `String` because every emitter branches on it with string
comparisons (`=== 'High'`, `=== 'Medium'`, else-branch). -/
structure SOP where
  id : String
  title : String
  trigger : String
  immediateSteps : List SOPStep
  preventiveActions : List SOPStep
  responsibleTeam : String
  severity : String
  incidentType : String
  createdAt : String
deriving Repr, DecidableEq

/-- The user-submitted incident report, from the `Incident` interface
(only the fields the SOP-generation route reads). -/
structure Incident where
  id : String
  type : String
  severity : String
  actionsTaken : List String
deriving Repr, DecidableEq

/-- JavaScript `x || d` for an optional string `x`: the default applies when
the value is `undefined` or the empty string (both falsy). -/
def jsOr (o : Option String) (d : String) : String :=
  match o with
  | none => d
  | some s => if s = "" then d else s

/-- JavaScript `s || d` for a present string: the default applies exactly
when `s` is empty. -/
def jsOrStr (s d : String) : String :=
  if s = "" then d else s

/-- JavaScript truthiness of an optional string. -/
def jsTruthy (o : Option String) : Bool :=
  match o with
  | none => false
  | some s => s ≠ ""

/-- Per-character string map (used to model the per-character JavaScript
string operations `toUpperCase`, `toLowerCase` and single-character-class
`replace`). -/
def strMap (f : Char → Char) (s : String) : String :=
  ⟨s.data.map f⟩

/-- JavaScript `toLowerCase`, per character (ASCII). -/
def jsToLower (s : String) : String :=
  strMap Char.toLower s

/-- JavaScript `toUpperCase`, per character (ASCII). -/
def jsToUpper (s : String) : String :=
  strMap Char.toUpper s

/-- Whether `p` is a prefix of a character list (Boolean). -/
def isPre : List Char → List Char → Bool
  | [], _ => true
  | _ :: _, [] => false
  | a :: as, b :: bs => a == b && isPre as bs

/-- Whether the pattern occurs as a contiguous run inside the list. -/
def occursIn (p : List Char) : List Char → Bool
  | [] => p.isEmpty
  | c :: rest => isPre p (c :: rest) || occursIn p rest

/-- Whether the string `pat` occurs as a substring of `s`. -/
def containsStr (s pat : String) : Bool :=
  occursIn pat.data s.data

/-- Risk label derived from severity; the conditional
`severity === 'High' ? 'CRITICAL' : severity === 'Medium' ? 'MODERATE' : 'LOW'`
appears verbatim in the PDF, DOCX, HTML and clipboard emitters. -/
def riskLevel (sev : String) : String :=
  if sev = "High" then "CRITICAL" else if sev = "Medium" then "MODERATE" else "LOW"

/-- Resolution-time target derived from severity; the conditional with the
values `'< 30 minutes' / '< 60 minutes' / '< 120 minutes'` appears verbatim in
the PDF, DOCX and clipboard emitters and in the copy-to-clipboard script
embedded in the HTML output. -/
def resolutionTarget (sev : String) : String :=
  if sev = "High" then "< 30 minutes" else if sev = "Medium" then "< 60 minutes" else "< 120 minutes"

/-- Availability target derived from severity; the conditional with the values
`'99.9%' / '99.5%' / '99.0%'` appears verbatim in all four emitters. -/
def availabilityTarget (sev : String) : String :=
  if sev = "High" then "99.9%" else if sev = "Medium" then "99.5%" else "99.0%"

/-- The resolution-target value shown in the HTML metrics grid
(`metric-value` card), which abbreviates the unit:
`'< 30 min' / '< 60 min' / '< 120 min'`. -/
def htmlResolutionMetricValue (sev : String) : String :=
  if sev = "High" then "< 30 min" else if sev = "Medium" then "< 60 min" else "< 120 min"

/-- The completion marker appended to a completed step title. -/
def completionMarker : String := " ✓ COMPLETED"

/-- The suffix `isCompleted ? ' ✓ COMPLETED' : ''` with
`isCompleted = completedSteps.includes(step.id)`; this expression appears
verbatim in all four emitters. -/
def completionSuffix (cs : List String) (id : String) : String :=
  if id ∈ cs then completionMarker else ""

/-- The per-step content an emitter interpolates into its step card. -/
structure StepCardContent where
  title : String
  description : String
  responsible : String
  duration : String
  priority : String
deriving Repr, DecidableEq

/-- PDF step-card title: `${phase}${step.title}${isCompleted ? ' ✓ COMPLETED' : ''}`
from `renderDetailedStep`; the call sites pass `STEP ${index + 1}: ` and
`PREVENTION ${index + 1}: ` as `phase`. -/
def pdfStepTitleText (phase : String) (s : SOPStep) (cs : List String) : String :=
  phase ++ s.title ++ completionSuffix cs s.id

/-- PDF step-card metadata line from `renderDetailedStep`: each of
responsible / duration / priority is appended only when present (truthy);
nothing is defaulted. -/
def pdfMetaInfo (s : SOPStep) : String :=
  let m1 := if jsTruthy s.responsible then "Responsible: " ++ s.responsible.getD "" else ""
  let m2 := if jsTruthy s.estimatedTime then
      (if m1 ≠ "" then m1 ++ " | Duration: " ++ s.estimatedTime.getD ""
       else m1 ++ "Duration: " ++ s.estimatedTime.getD "")
    else m1
  if jsTruthy s.priority then m2 ++ " | Priority: " ++ jsToUpper (s.priority.getD "") else m2

/-- The textual content of one PDF step card: the three `addText` payloads of
`renderDetailedStep` (title, description line, metadata line). -/
def pdfStepCardText (phase : String) (s : SOPStep) (cs : List String) : String :=
  pdfStepTitleText phase s cs ++ "\n" ++ "Action Required: " ++ s.description ++ "\n" ++ pdfMetaInfo s

/-- DOCX immediate-step card content (the values interpolated into the three
paragraphs per immediate step in `generateDOCX`). -/
def docxImmediateCard (i : Nat) (s : SOPStep) (cs : List String) : StepCardContent :=
  { title := "STEP " ++ toString (i + 1) ++ ": " ++ s.title ++ completionSuffix cs s.id
    description := s.description
    responsible := jsOr s.responsible "Operations Team"
    duration := jsOr s.estimatedTime "TBD"
    priority := jsOr (s.priority.map jsToUpper) "HIGH" }

/-- DOCX preventive-action card content (the values interpolated into the
three paragraphs per preventive action in `generateDOCX`). -/
def docxPreventiveCard (i : Nat) (s : SOPStep) (cs : List String) : StepCardContent :=
  { title := "PREVENTION " ++ toString (i + 1) ++ ": " ++ s.title ++ completionSuffix cs s.id
    description := s.description
    responsible := jsOr s.responsible "DevOps Team"
    duration := jsOr s.estimatedTime "TBD"
    priority := jsOr (s.priority.map jsToUpper) "MEDIUM" }

/-- HTML immediate-step card content (the values interpolated into the
`step-title`, `step-description` and `step-meta` markup in `generateHTML`). -/
def htmlImmediateCard (i : Nat) (s : SOPStep) (cs : List String) : StepCardContent :=
  { title := "STEP " ++ toString (i + 1) ++ ": " ++ s.title ++ completionSuffix cs s.id
    description := s.description
    responsible := jsOr s.responsible "Operations Team"
    duration := jsOr s.estimatedTime "TBD"
    priority := jsOr (s.priority.map jsToUpper) "HIGH" }

/-- HTML preventive-action card content. -/
def htmlPreventiveCard (i : Nat) (s : SOPStep) (cs : List String) : StepCardContent :=
  { title := "PREVENTION " ++ toString (i + 1) ++ ": " ++ s.title ++ completionSuffix cs s.id
    description := s.description
    responsible := jsOr s.responsible "DevOps Team"
    duration := jsOr s.estimatedTime "TBD"
    priority := jsOr (s.priority.map jsToUpper) "MEDIUM" }

/-- Clipboard immediate-step card content (the values interpolated into the
immediate-step block of `generateClipboardText`; note the priority is
`(step.priority || 'HIGH').toUpperCase()`). -/
def clipboardImmediateCard (i : Nat) (s : SOPStep) (cs : List String) : StepCardContent :=
  { title := "STEP " ++ toString (i + 1) ++ ": " ++ s.title ++ completionSuffix cs s.id
    description := s.description
    responsible := jsOr s.responsible "Operations Team"
    duration := jsOr s.estimatedTime "TBD"
    priority := jsToUpper (jsOr s.priority "HIGH") }

/-- Clipboard preventive-action card content. -/
def clipboardPreventiveCard (i : Nat) (s : SOPStep) (cs : List String) : StepCardContent :=
  { title := "PREVENTION " ++ toString (i + 1) ++ ": " ++ s.title ++ completionSuffix cs s.id
    description := s.description
    responsible := jsOr s.responsible "DevOps Team"
    duration := jsOr s.estimatedTime "TBD"
    priority := jsToUpper (jsOr s.priority "MEDIUM") }

/-- The divider rule used between clipboard sections (78 box-drawing chars). -/
def clipboardSeparator : String :=
  "━━━━━━━━━━━━━━━━━━━━━━━━━━━━━━━━━━━━━━━━━━━━━━━━━━━━━━━━━━━━━━━━━━━━━━━━━━━━━━"

/-- One immediate-step block of the clipboard text (title line, indented
action / responsible / duration / priority lines, blank line). -/
def clipboardImmediateStepBlock (i : Nat) (s : SOPStep) (cs : List String) : String :=
  let card := clipboardImmediateCard i s cs
  card.title ++ "\n" ++
  "   Action Required: " ++ card.description ++ "\n" ++
  "   Responsible: " ++ card.responsible ++ "\n" ++
  "   Duration: " ++ card.duration ++ "\n" ++
  "   Priority: " ++ card.priority ++ "\n\n"

/-- One preventive-action block of the clipboard text. -/
def clipboardPreventiveStepBlock (i : Nat) (s : SOPStep) (cs : List String) : String :=
  let card := clipboardPreventiveCard i s cs
  card.title ++ "\n" ++
  "   Action Required: " ++ card.description ++ "\n" ++
  "   Responsible: " ++ card.responsible ++ "\n" ++
  "   Duration: " ++ card.duration ++ "\n" ++
  "   Priority: " ++ card.priority ++ "\n\n"

/-- The full plain-text payload built by `generateClipboardText`.
`fmtDateTime` and `fmtDate` stand for `new Date(x).toLocaleString()` and
`new Date(x).toLocaleDateString()`, which are locale renderings of the SOP's
creation timestamp. -/
def generateClipboardText (fmtDateTime fmtDate : String → String)
    (sop : SOP) (completedSteps : List String) : String :=
  "STANDARD OPERATING PROCEDURE\n" ++ sop.title ++ "\n\n" ++
  "INCIDENT CLASSIFICATION\n" ++ clipboardSeparator ++ "\n" ++
  "Type: " ++ sop.incidentType ++ " | Severity: " ++ sop.severity ++ " | Status: ACTIVE\n" ++
  "Primary Team: " ++ sop.responsibleTeam ++ "\n" ++
  "Generated: " ++ fmtDateTime sop.createdAt ++ " | Version: 1.0\n\n" ++
  "EXECUTIVE SUMMARY\n" ++ clipboardSeparator ++ "\n" ++
  "This Standard Operating Procedure provides comprehensive guidelines for responding to and preventing incidents of type \"" ++ sop.incidentType ++ "\" with " ++ jsToLower sop.severity ++ " severity impact. The procedures outlined ensure systematic incident resolution, minimize operational disruption, and prevent future occurrences through structured preventive measures.\n\n" ++
  "RISK ASSESSMENT & IMPACT ANALYSIS\n" ++ clipboardSeparator ++ "\n" ++
  "Risk Level: " ++ riskLevel sop.severity ++ "\n" ++
  "Business Impact: " ++ sop.severity ++ " severity incidents can significantly affect operational continuity, system availability, and business processes.\n\n" ++
  "INCIDENT TRIGGER & PROBLEM STATEMENT\n" ++ clipboardSeparator ++ "\n" ++
  "PRIMARY TRIGGER:\n" ++ sop.trigger ++ "\n\n" ++
  "DETECTION METHODS:\n" ++
  "• Automated monitoring alerts and system health checks\n" ++
  "• User reports and service desk notifications\n" ++
  "• Performance degradation indicators\n" ++
  "• System log analysis and error pattern recognition\n\n" ++
  "IMMEDIATE RESPONSE ACTIONS (Phase 1)\n" ++ clipboardSeparator ++ "\n" ++
  "Execute immediately upon incident detection. Time critical for " ++ jsToLower sop.severity ++ " severity incidents.\n\n" ++
  String.join (sop.immediateSteps.enum.map fun p => clipboardImmediateStepBlock p.1 p.2 completedSteps) ++
  "ESCALATION PROCEDURES\n" ++ clipboardSeparator ++ "\n" ++
  "Level 1 Escalation (15 minutes):\n" ++
  "   • Notify team lead and senior operations staff\n" ++
  "   • Activate backup systems if available\n" ++
  "   • Initiate customer communication protocols\n\n" ++
  "Level 2 Escalation (30 minutes):\n" ++
  "   • Contact executive leadership and incident commander\n" ++
  "   • Engage external vendor support if required\n" ++
  "   • Activate business continuity plans\n\n" ++
  "PREVENTIVE MEASURES & LONG-TERM MITIGATION (Phase 2)\n" ++ clipboardSeparator ++ "\n" ++
  "Implement these measures to prevent incident recurrence and strengthen system resilience.\n\n" ++
  String.join (sop.preventiveActions.enum.map fun p => clipboardPreventiveStepBlock p.1 p.2 completedSteps) ++
  "PERFORMANCE METRICS & SUCCESS CRITERIA\n" ++ clipboardSeparator ++ "\n" ++
  "Key Performance Indicators:\n" ++
  "• Incident Resolution Time: " ++ resolutionTarget sop.severity ++ "\n" ++
  "• System Availability Target: " ++ availabilityTarget sop.severity ++ "\n" ++
  "• Customer Impact: Minimize affected user count\n" ++
  "• Communication Response: < 5 minutes initial notification\n\n" ++
  "SUCCESS CRITERIA:\n" ++
  "• Incident fully resolved within target timeframe\n" ++
  "• No data loss or corruption occurred\n" ++
  "• All affected services restored to normal operation\n" ++
  "• Root cause identified and documented\n" ++
  "• Preventive measures implemented and verified\n\n" ++
  "DOCUMENT CONTROL & APPROVALS\n" ++ clipboardSeparator ++ "\n" ++
  "Document Information:\n" ++
  "Version: 1.0 | Created: " ++ fmtDate sop.createdAt ++ " | Status: Active\n\n" ++
  "Review & Approval Matrix:\n" ++
  "• Prepared by: Operations Team | Date: _______________\n" ++
  "• Reviewed by: Team Lead | Date: _______________\n" ++
  "• Approved by: Operations Manager | Date: _______________\n\n" ++
  "Next Review Date: ________________________\n\n" ++
  "Generated by sopify Enterprise Operations Platform"

/-- Filename sanitization used by the emitters:
`title.replace(/[^a-z0-9]/gi, '_').toLowerCase()` — every character that is
not an ASCII letter or digit is replaced by an underscore, then the result is
lower-cased. -/
def sanitizeTitle (t : String) : String :=
  jsToLower (strMap (fun c => if c.isAlphanum then c else '_') t)

/-- Modelled from the spec: the sanitization rule as the specification words
it — retain only ASCII letters and digits (all other characters removed),
then lower-case. Used only to compare the spec's rule with the code's. -/
def sanitizeSpecRule (t : String) : String :=
  jsToLower ⟨t.data.filter Char.isAlphanum⟩

/-- Attachment filename of the DOCX response (Content-Disposition header). -/
def docxFilename (sop : SOP) : String :=
  jsToLower (strMap (fun c => if c.isAlphanum then c else '_') sop.title) ++ ".docx"

/-- Attachment filename of the HTML response (Content-Disposition header). -/
def htmlFilename (sop : SOP) : String :=
  jsToLower (strMap (fun c => if c.isAlphanum then c else '_') sop.title) ++ ".html"

/-- Attachment filename of the PDF response; `ts` is the decimal rendering of
`new Date().getTime()`. -/
def pdfFilename (sop : SOP) (ts : String) : String :=
  "SOP_" ++ jsToLower (strMap (fun c => if c.isAlphanum then c else '_') sop.title) ++ "_" ++ ts ++ ".pdf"

/-- Vertical cursor of the PDF layout: current page number and `yPosition`.
Lengths are in millimetres, modelled as rationals. -/
structure PdfCursor where
  page : Nat
  y : ℚ
deriving DecidableEq

/-- The `checkPageSpace` helper of `generatePDF`: if the required space does
not fit above the footer reservation band (15 mm above the bottom margin), a
page is added and the cursor is reset to `margin + 10`; the returned flag
records whether a break was inserted.  `pageHeight` and `margin` are the
surrounding constants (A4 height and 20 mm in the source). -/
def checkPageSpace (pageHeight margin requiredSpace : ℚ) (st : PdfCursor) : PdfCursor × Bool :=
  if st.y + requiredSpace > pageHeight - margin - 15 then
    ({ page := st.page + 1, y := margin + 10 }, true)
  else
    (st, false)

/-- The cursor arithmetic of the `addText` helper of `generatePDF`.
`numLines` is the number of wrapped lines `splitTextToSize` produced; the
line height is `fontSize * 0.4 + 2`.  Returns the cursor after the block and
the y position at which the block began rendering (the `yPosition` in effect
after the `checkPageSpace` call). -/
def addTextCursor (pageHeight margin : ℚ) (numLines : Nat) (fontSize bottomSpacing : ℚ)
    (st : PdfCursor) : PdfCursor × ℚ :=
  let lineHeight := fontSize * (2 / 5) + 2
  let totalTextHeight := (numLines : ℚ) * lineHeight
  let st1 := (checkPageSpace pageHeight margin (totalTextHeight + bottomSpacing) st).1
  ({ st1 with y := st1.y + totalTextHeight + bottomSpacing }, st1.y)

/-- Raw SOP content as produced by the AI parse or the fallback, before the
route builds the final `SOP` record (the `sopData` object). -/
structure SOPData where
  title : String
  trigger : String
  immediateSteps : List SOPStep
  preventiveActions : List SOPStep
  responsibleTeam : String
deriving Repr, DecidableEq

/-- The number of immediate steps the generation prompt requests:
`incident.severity === 'High' ? 5 : incident.severity === 'Medium' ? 4 : 3`. -/
def stepCountRequested (sev : String) : Nat :=
  if sev = "High" then 5 else if sev = "Medium" then 4 else 3

/-- The number of preventive actions the generation prompt requests (the same
conditional as `stepCountRequested`). -/
def preventiveCountRequested (sev : String) : Nat :=
  if sev = "High" then 5 else if sev = "Medium" then 4 else 3

/-- The fallback SOP content substituted when parsing the AI response fails:
three fixed immediate steps and two fixed preventive actions. -/
def fallbackSopData (inc : Incident) : SOPData :=
  { title := "SOP: " ++ inc.type ++ " Response Procedure"
    trigger := "When " ++ jsToLower inc.type ++ " occurs affecting system operations"
    immediateSteps :=
      [ { id := "step_1", title := "Immediate Assessment"
          description := "Assess the scope and impact of the " ++ jsToLower inc.type
          estimatedTime := some "5 minutes", responsible := some "Operations Team"
          priority := some "high", completed := none }
      , { id := "step_2", title := "Execute Actions"
          description := "Implement the following actions: " ++ String.intercalate ", " inc.actionsTaken
          estimatedTime := some "15 minutes", responsible := some "Technical Team"
          priority := some "high", completed := none }
      , { id := "step_3", title := "Verify Resolution"
          description := "Confirm that the incident has been resolved and systems are operational"
          estimatedTime := some "10 minutes", responsible := some "Operations Team"
          priority := some "high", completed := none } ]
    preventiveActions :=
      [ { id := "prev_1", title := "System Monitoring"
          description := "Implement enhanced monitoring to prevent similar incidents"
          estimatedTime := some "2 hours", responsible := some "DevOps Team"
          priority := some "medium", completed := none }
      , { id := "prev_2", title := "Process Documentation"
          description := "Document lessons learned and update procedures"
          estimatedTime := some "1 hour", responsible := some "Operations Team"
          priority := some "low", completed := none } ]
    responsibleTeam := "Operations Team" }

/-- The final `SOP` object the generation route returns: ids are defaulted to
`immediate_${index+1}` / `preventive_${index+1}` when missing, severity and
incident type are copied from the incident, `now` stands for the
`new Date().toISOString()` creation stamp. -/
def buildSop (inc : Incident) (d : SOPData) (now : String) : SOP :=
  { id := inc.id
    title := d.title
    trigger := d.trigger
    immediateSteps := d.immediateSteps.enum.map fun p =>
      { p.2 with id := jsOrStr p.2.id ("immediate_" ++ toString (p.1 + 1)) }
    preventiveActions := d.preventiveActions.enum.map fun p =>
      { p.2 with id := jsOrStr p.2.id ("preventive_" ++ toString (p.1 + 1)) }
    responsibleTeam := d.responsibleTeam
    severity := inc.severity
    incidentType := inc.type
    createdAt := now }

/-- The model-probing loop of the diagnostic endpoint: try each model name in
order, keep the first success, give up when the list is exhausted.  `oracle`
maps a model identifier to its response text, or `none` when the call throws. -/
def tryModelsInOrder (oracle : String → Option String) : List String → Option String
  | [] => none
  | m :: ms =>
    match oracle m with
    | some t => some t
    | none => tryModelsInOrder oracle ms

/-- The single generative call of the SOP-generation route: one
`generateContent` request against the fixed model identifier
`gemini-2.5-flash`. -/
def sopGenerationModelCall (oracle : String → Option String) : Option String :=
  oracle "gemini-2.5-flash"

/-- Outcome of the SOP-generation route: a generated SOP, or the error JSON
surfaced by the route's catch block (one of the classified 401/429/503/500
responses). -/
inductive GenResult where
  | ok (sop : SOP)
  | fail
deriving Repr, DecidableEq

/-- The SOP-generation endpoint: one model call; on call failure the catch
surfaces an error; on success the response text is parsed and, when parsing
fails, the fallback SOP content is substituted.  `parse` abstracts the
markdown-stripping JSON parse. -/
def generateSopEndpoint (oracle : String → Option String)
    (parse : String → Option SOPData) (inc : Incident) (now : String) : GenResult :=
  match sopGenerationModelCall oracle with
  | none => .fail
  | some text => .ok (buildSop inc ((parse text).getD (fallbackSopData inc)) now)

/-- The body of an export request after `request.json()`:
`sop`, `format` and `completedSteps` may each be absent. -/
structure ExportRequest where
  sop : Option SOP
  format : Option String
  completedSteps : Option (List String)

/-- The response of the export route, abstracted to what the route
distinguishes: a structured error JSON with an HTTP status, the clipboard
JSON object with its `text` field, or a binary document with its
Content-Type and Content-Disposition filename. -/
inductive ExportResult where
  | errorJson (message : String) (status : Nat)
  | clipboardJson (text : String)
  | document (contentType : String) (filename : String)
deriving Repr, DecidableEq

/-- The try/catch around an emitter call: a thrown render error becomes the
generic 500 `Export failed` response. -/
def handleEmit : Except Unit ExportResult → ExportResult
  | .ok r => r
  | .error _ => .errorJson "Export failed" 500

/-- The export dispatcher (`POST` of the export route): missing `sop` or
`format` (absent or falsy) is rejected with 400 before the format switch;
unrecognized format tokens fall through to the 400 `Unsupported format`
default; `completedSteps` defaults to the empty list via the destructuring
default.  The PDF, DOCX and HTML emitters call into the jsPDF / docx
libraries and are abstracted as fallible functions; the clipboard emitter is
the concrete `generateClipboardText`. -/
def dispatchExport (emitPdf emitDocx emitHtml : SOP → List String → Except Unit ExportResult)
    (fmtDateTime fmtDate : String → String) (req : ExportRequest) : ExportResult :=
  match req.sop with
  | none => .errorJson "Missing required parameters" 400
  | some sop =>
    match req.format with
    | none => .errorJson "Missing required parameters" 400
    | some fmt =>
      if fmt = "" then .errorJson "Missing required parameters" 400
      else
        let completed := req.completedSteps.getD []
        if fmt = "pdf" then handleEmit (emitPdf sop completed)
        else if fmt = "docx" then handleEmit (emitDocx sop completed)
        else if fmt = "html" then handleEmit (emitHtml sop completed)
        else if fmt = "clipboard" then
          .clipboardJson (generateClipboardText fmtDateTime fmtDate sop completed)
        else .errorJson "Unsupported format" 400

/-- A concrete SOP record (the shape the generation route produces for a
Server Down incident), used to instantiate universally quantified theorems
at an explicit input. -/
def sampleSop : SOP :=
  { id := "incident_1"
    title := "SOP: Server Down Response Procedure"
    trigger := "When server down occurs affecting system operations"
    immediateSteps :=
      [ { id := "step_1", title := "Immediate Assessment"
          description := "Assess the scope and impact of the server down"
          estimatedTime := some "5 minutes", responsible := some "Operations Team"
          priority := some "high", completed := none } ]
    preventiveActions :=
      [ { id := "prev_1", title := "System Monitoring"
          description := "Implement enhanced monitoring to prevent similar incidents"
          estimatedTime := some "2 hours", responsible := some "DevOps Team"
          priority := some "medium", completed := none } ]
    responsibleTeam := "Operations Team"
    severity := "High"
    incidentType := "Server Down"
    createdAt := "2025-01-01T00:00:00.000Z" }

lemma strMap_eq_empty_iff (f : Char → Char) (s : String) : strMap f s = "" ↔ s = "" := by
  constructor
  · intro h
    have hd : (strMap f s).data = ([] : List Char) := by rw [h]
    have : s.data.map f = [] := hd
    have hnil : s.data = [] := List.map_eq_nil_iff.mp this
    exact String.ext hnil
  · intro h; subst h; rfl

lemma jsOr_map_upper (o : Option String) (d : String) (hd : jsToUpper d = d) :
    jsOr (o.map jsToUpper) d = jsToUpper (jsOr o d) := by
  cases o with
  | none => simp [jsOr, hd]
  | some s =>
    by_cases hs : s = ""
    · subst hs
      have h0 : jsToUpper "" = "" := rfl
      simp [jsOr, h0, hd]
    · have hne : jsToUpper s ≠ "" := fun h => hs ((strMap_eq_empty_iff Char.toUpper s).mp h)
      simp [jsOr, hs, hne]

lemma isPre_self (l : List Char) : isPre l l = true := by
  induction l with
  | nil => rfl
  | cons a as ih => simp [isPre, ih]

lemma occursIn_append_self (a m : List Char) : occursIn m (a ++ m) = true := by
  induction a with
  | nil =>
    cases m with
    | nil => rfl
    | cons c cs => simp [occursIn, isPre_self]
  | cons b bs ih => simp [occursIn, ih]

lemma containsStr_append_marker (base m : String) : containsStr (base ++ m) m = true := by
  simp [containsStr, String.data_append, occursIn_append_self]

lemma marker_iff_of_base (base id : String) (cs : List String)
    (h : containsStr base completionMarker = false) :
    (containsStr (base ++ completionSuffix cs id) completionMarker = true ↔ id ∈ cs) := by
  by_cases hid : id ∈ cs
  · simp [completionSuffix, hid, containsStr_append_marker]
  · simp [completionSuffix, hid, String.append_empty, h]

/-- C5: for every step, index and completed-step set, the HTML emitter and
the clipboard (plain-text) emitter interpolate textually identical step
titles, descriptions, responsible parties, durations and priorities into
their step cards, for immediate steps and preventive actions alike. -/
theorem c5_html_clipboard_content_agree (i : Nat) (s : SOPStep) (cs : List String) :
    htmlImmediateCard i s cs = clipboardImmediateCard i s cs
    ∧ htmlPreventiveCard i s cs = clipboardPreventiveCard i s cs := by
  constructor
  · simp [htmlImmediateCard, clipboardImmediateCard,
      jsOr_map_upper s.priority "HIGH" (by decide)]
  · simp [htmlPreventiveCard, clipboardPreventiveCard,
      jsOr_map_upper s.priority "MEDIUM" (by decide)]

/-- C6 counterexample: the claim requires every emitter to render the
resolution target `"< 30 minutes"` for severity High, but the HTML emitter's
metrics grid renders the abbreviated `"< 30 min"`. -/
theorem c6_policy_table_counterexample :
    htmlResolutionMetricValue "High" = "< 30 min"
    ∧ htmlResolutionMetricValue "High" ≠ resolutionTarget "High" := by
  constructor
  · rfl
  · decide

/-- C6 (amended): the severity-derived policy values follow the fixed table
(risk label CRITICAL/MODERATE/LOW, resolution target < 30 / < 60 / < 120
minutes, availability target 99.9% / 99.5% / 99.0%) in the PDF, DOCX and
clipboard emitters and in the HTML risk label, availability metric and
embedded copy script; the HTML metrics grid alone abbreviates the resolution
target to < 30 / < 60 / < 120 min. -/
theorem c6_policy_table_amended :
    riskLevel "High" = "CRITICAL" ∧ riskLevel "Medium" = "MODERATE" ∧ riskLevel "Low" = "LOW"
    ∧ resolutionTarget "High" = "< 30 minutes"
    ∧ resolutionTarget "Medium" = "< 60 minutes"
    ∧ resolutionTarget "Low" = "< 120 minutes"
    ∧ availabilityTarget "High" = "99.9%"
    ∧ availabilityTarget "Medium" = "99.5%"
    ∧ availabilityTarget "Low" = "99.0%"
    ∧ htmlResolutionMetricValue "High" = "< 30 min"
    ∧ htmlResolutionMetricValue "Medium" = "< 60 min"
    ∧ htmlResolutionMetricValue "Low" = "< 120 min" := by
  refine ⟨rfl, ?_, ?_, rfl, ?_, ?_, rfl, ?_, ?_, rfl, ?_, ?_⟩ <;> decide

/-- C10: when an export request omits `completedSteps`, the destructuring
default substitutes the empty list, so the dispatcher's response is identical
to that of a request with an explicitly empty completed-step set; and with an
empty completed-step set every emitter renders every step title in its
unmarked form (no completion marker appended). -/
theorem c10_missing_completed_steps (emitPdf emitDocx emitHtml : SOP → List String → Except Unit ExportResult)
    (fmtDateTime fmtDate : String → String) (osop : Option SOP) (ofmt : Option String)
    (i : Nat) (s : SOPStep) (ph : String) :
    dispatchExport emitPdf emitDocx emitHtml fmtDateTime fmtDate ⟨osop, ofmt, none⟩
      = dispatchExport emitPdf emitDocx emitHtml fmtDateTime fmtDate ⟨osop, ofmt, some []⟩
    ∧ (clipboardImmediateCard i s []).title = "STEP " ++ toString (i + 1) ++ ": " ++ s.title
    ∧ (clipboardPreventiveCard i s []).title = "PREVENTION " ++ toString (i + 1) ++ ": " ++ s.title
    ∧ (htmlImmediateCard i s []).title = "STEP " ++ toString (i + 1) ++ ": " ++ s.title
    ∧ (htmlPreventiveCard i s []).title = "PREVENTION " ++ toString (i + 1) ++ ": " ++ s.title
    ∧ (docxImmediateCard i s []).title = "STEP " ++ toString (i + 1) ++ ": " ++ s.title
    ∧ (docxPreventiveCard i s []).title = "PREVENTION " ++ toString (i + 1) ++ ": " ++ s.title
    ∧ pdfStepTitleText ph s [] = ph ++ s.title := by
  refine ⟨?_, ?_, ?_, ?_, ?_, ?_, ?_, ?_⟩
  · cases osop <;> cases ofmt <;> rfl
  all_goals
    simp [clipboardImmediateCard, clipboardPreventiveCard, htmlImmediateCard,
      htmlPreventiveCard, docxImmediateCard, docxPreventiveCard, pdfStepTitleText,
      completionSuffix, String.append_empty]

/-- C1 counterexample: the completion-marker equivalence fails as stated for
a step whose own title already contains the marker text: with an empty
completed-step set, the clipboard emitter's rendered title contains
` ✓ COMPLETED` although the step's id is not in the set. -/
theorem c1_marker_counterexample :
    containsStr (clipboardImmediateCard 0
      { id := "step_1", title := "Restart ✓ COMPLETED", description := "d",
        estimatedTime := none, responsible := none, priority := none, completed := none }
      []).title completionMarker = true
    ∧ ("step_1" : String) ∉ ([] : List String) := by
  exact ⟨by decide, by simp⟩

/-- C1 (amended): provided the completion marker does not already occur in
the step's unmarked numbered title, then in each of the four emitters (PDF,
DOCX, HTML, clipboard; immediate steps and preventive actions alike) the
rendered step title contains ` ✓ COMPLETED` iff the step's id is a member of
the supplied completed-step set. -/
theorem c1_marker_iff (i : Nat) (s : SOPStep) (cs : List String)
    (hImm : containsStr ("STEP " ++ toString (i + 1) ++ ": " ++ s.title) completionMarker = false)
    (hPrev : containsStr ("PREVENTION " ++ toString (i + 1) ++ ": " ++ s.title) completionMarker = false) :
    (containsStr (pdfStepTitleText ("STEP " ++ toString (i + 1) ++ ": ") s cs) completionMarker = true ↔ s.id ∈ cs)
    ∧ (containsStr (pdfStepTitleText ("PREVENTION " ++ toString (i + 1) ++ ": ") s cs) completionMarker = true ↔ s.id ∈ cs)
    ∧ (containsStr (docxImmediateCard i s cs).title completionMarker = true ↔ s.id ∈ cs)
    ∧ (containsStr (docxPreventiveCard i s cs).title completionMarker = true ↔ s.id ∈ cs)
    ∧ (containsStr (htmlImmediateCard i s cs).title completionMarker = true ↔ s.id ∈ cs)
    ∧ (containsStr (htmlPreventiveCard i s cs).title completionMarker = true ↔ s.id ∈ cs)
    ∧ (containsStr (clipboardImmediateCard i s cs).title completionMarker = true ↔ s.id ∈ cs)
    ∧ (containsStr (clipboardPreventiveCard i s cs).title completionMarker = true ↔ s.id ∈ cs) := by
  have hi := marker_iff_of_base ("STEP " ++ toString (i + 1) ++ ": " ++ s.title) s.id cs hImm
  have hp := marker_iff_of_base ("PREVENTION " ++ toString (i + 1) ++ ": " ++ s.title) s.id cs hPrev
  simp only [String.append_assoc] at hi hp
  refine ⟨?_, ?_, ?_, ?_, ?_, ?_, ?_, ?_⟩
  · simpa only [pdfStepTitleText, String.append_assoc] using hi
  · simpa only [pdfStepTitleText, String.append_assoc] using hp
  · simpa only [docxImmediateCard, String.append_assoc] using hi
  · simpa only [docxPreventiveCard, String.append_assoc] using hp
  · simpa only [htmlImmediateCard, String.append_assoc] using hi
  · simpa only [htmlPreventiveCard, String.append_assoc] using hp
  · simpa only [clipboardImmediateCard, String.append_assoc] using hi
  · simpa only [clipboardPreventiveCard, String.append_assoc] using hp

/-- C1 witness: concrete instance of the amended marker equivalence, with a
completed step. -/
theorem c1_marker_iff_witness :
    containsStr (clipboardImmediateCard 0
      { id := "step_1", title := "Restart server", description := "d",
        estimatedTime := none, responsible := none, priority := none, completed := none }
      ["step_1"]).title completionMarker = true :=
  ((c1_marker_iff 0
      { id := "step_1", title := "Restart server", description := "d",
        estimatedTime := none, responsible := none, priority := none, completed := none }
      ["step_1"] (by decide) (by decide)).2.2.2.2.2.2.1).mpr (by simp)

/-- C2 counterexample: the emitters replace each non-alphanumeric title
character with an underscore rather than removing it, so the title
`"SOP: Server Down Response Procedure!"` sanitizes to
`"sop__server_down_response_procedure_"` — not to the spec's removal-rule
result nor to the spec's concrete expected base
`"sop_server_down_response_procedure"`. -/
theorem c2_sanitize_counterexample :
    sanitizeTitle "SOP: Server Down Response Procedure!" = "sop__server_down_response_procedure_"
    ∧ sanitizeSpecRule "SOP: Server Down Response Procedure!" = "sopserverdownresponseprocedure"
    ∧ sanitizeTitle "SOP: Server Down Response Procedure!"
        ≠ sanitizeSpecRule "SOP: Server Down Response Procedure!"
    ∧ sanitizeTitle "SOP: Server Down Response Procedure!"
        ≠ "sop_server_down_response_procedure" := by
  refine ⟨by decide, by decide, by decide, by decide⟩

/-- C2 (amended): the shared sanitization rule replaces every character that
is not an ASCII letter or digit with an underscore and lower-cases the
result (equivalently, a single per-character pass); the DOCX and HTML
attachment filenames are exactly this base plus the native extension, while
the PDF filename wraps the same base as `SOP_<base>_<timestamp>.pdf`; the
example title yields the base `"sop__server_down_response_procedure_"`. -/
theorem c2_sanitize_amended :
    (∀ t : String, sanitizeTitle t = strMap (fun c => if c.isAlphanum then c.toLower else '_') t)
    ∧ (∀ sop : SOP, docxFilename sop = sanitizeTitle sop.title ++ ".docx")
    ∧ (∀ sop : SOP, htmlFilename sop = sanitizeTitle sop.title ++ ".html")
    ∧ (∀ (sop : SOP) (ts : String),
        pdfFilename sop ts = "SOP_" ++ sanitizeTitle sop.title ++ "_" ++ ts ++ ".pdf")
    ∧ sanitizeTitle "SOP: Server Down Response Procedure!" = "sop__server_down_response_procedure_" := by
  refine ⟨?_, fun _ => rfl, fun _ => rfl, fun _ _ => rfl, by decide⟩
  intro t
  apply String.ext
  show (t.data.map fun c => if c.isAlphanum then c else '_').map Char.toLower
      = t.data.map fun c => if c.isAlphanum then c.toLower else '_'
  rw [List.map_map]
  apply List.map_congr_left
  intro c _
  by_cases h : c.isAlphanum
  · simp [h, Function.comp]
  · simp [h, Function.comp]

/-- C3 counterexample: for a step with absent responsible party, duration and
priority, the PDF emitter's step card carries an empty metadata line — it
renders no responsible party at all, so the rendered responsible party is not
`"Operations Team"` (the card text does not even contain it). -/
theorem c3_defaults_counterexample :
    pdfMetaInfo
      { id := "s1", title := "Check", description := "Inspect the host",
        estimatedTime := none, responsible := none, priority := none, completed := none } = ""
    ∧ containsStr (pdfStepCardText "STEP 1: "
      { id := "s1", title := "Check", description := "Inspect the host",
        estimatedTime := none, responsible := none, priority := none, completed := none }
      []) "Operations Team" = false := by
  exact ⟨by decide, by decide⟩

/-- C3 (amended): in the DOCX, HTML and clipboard emitters the step-card
defaults hold as claimed — responsible `Operations Team` (immediate) /
`DevOps Team` (preventive), duration `TBD`, priority `HIGH` (immediate) /
`MEDIUM` (preventive), and the rendered priority is always the upper-casing
of the step priority or of the default; the PDF emitter, by contrast, omits
absent responsible/duration/priority from its metadata line entirely
(yielding an empty line when all three are absent), upper-casing the
priority only when present. -/
theorem c3_defaults_amended (i : Nat) (s : SOPStep) (cs : List String) :
    (s.responsible = none →
      (docxImmediateCard i s cs).responsible = "Operations Team"
      ∧ (htmlImmediateCard i s cs).responsible = "Operations Team"
      ∧ (clipboardImmediateCard i s cs).responsible = "Operations Team"
      ∧ (docxPreventiveCard i s cs).responsible = "DevOps Team"
      ∧ (htmlPreventiveCard i s cs).responsible = "DevOps Team"
      ∧ (clipboardPreventiveCard i s cs).responsible = "DevOps Team")
    ∧ (s.estimatedTime = none →
      (docxImmediateCard i s cs).duration = "TBD"
      ∧ (htmlImmediateCard i s cs).duration = "TBD"
      ∧ (clipboardImmediateCard i s cs).duration = "TBD"
      ∧ (docxPreventiveCard i s cs).duration = "TBD"
      ∧ (htmlPreventiveCard i s cs).duration = "TBD"
      ∧ (clipboardPreventiveCard i s cs).duration = "TBD")
    ∧ (s.priority = none →
      (docxImmediateCard i s cs).priority = "HIGH"
      ∧ (htmlImmediateCard i s cs).priority = "HIGH"
      ∧ (clipboardImmediateCard i s cs).priority = "HIGH"
      ∧ (docxPreventiveCard i s cs).priority = "MEDIUM"
      ∧ (htmlPreventiveCard i s cs).priority = "MEDIUM"
      ∧ (clipboardPreventiveCard i s cs).priority = "MEDIUM")
    ∧ ((docxImmediateCard i s cs).priority = jsToUpper (jsOr s.priority "HIGH")
      ∧ (htmlImmediateCard i s cs).priority = jsToUpper (jsOr s.priority "HIGH")
      ∧ (clipboardImmediateCard i s cs).priority = jsToUpper (jsOr s.priority "HIGH")
      ∧ (docxPreventiveCard i s cs).priority = jsToUpper (jsOr s.priority "MEDIUM")
      ∧ (htmlPreventiveCard i s cs).priority = jsToUpper (jsOr s.priority "MEDIUM")
      ∧ (clipboardPreventiveCard i s cs).priority = jsToUpper (jsOr s.priority "MEDIUM"))
    ∧ (s.responsible = none → s.estimatedTime = none → s.priority = none →
        pdfMetaInfo s = "")
    ∧ (∀ p : String, p ≠ "" → s.responsible = none → s.estimatedTime = none →
        s.priority = some p → pdfMetaInfo s = " | Priority: " ++ jsToUpper p) := by
  refine ⟨?_, ?_, ?_, ?_, ?_, ?_⟩
  · intro h
    simp [docxImmediateCard, htmlImmediateCard, clipboardImmediateCard,
      docxPreventiveCard, htmlPreventiveCard, clipboardPreventiveCard, jsOr, h]
  · intro h
    simp [docxImmediateCard, htmlImmediateCard, clipboardImmediateCard,
      docxPreventiveCard, htmlPreventiveCard, clipboardPreventiveCard, jsOr, h]
  · intro h
    simp only [docxImmediateCard, htmlImmediateCard, clipboardImmediateCard,
      docxPreventiveCard, htmlPreventiveCard, clipboardPreventiveCard, jsOr,
      Option.map_none, h]
    decide
  · refine ⟨?_, ?_, ?_, ?_, ?_, ?_⟩ <;>
      simp [docxImmediateCard, htmlImmediateCard, clipboardImmediateCard,
        docxPreventiveCard, htmlPreventiveCard, clipboardPreventiveCard,
        jsOr_map_upper s.priority "HIGH" (by decide),
        jsOr_map_upper s.priority "MEDIUM" (by decide)]
  · intro h1 h2 h3
    simp [pdfMetaInfo, jsTruthy, h1, h2, h3]
  · intro p hp h1 h2 h3
    simp [pdfMetaInfo, jsTruthy, h1, h2, h3, hp]

/-- C3 witness: concrete instance of the amended defaults for a step with all
optional fields absent. -/
theorem c3_defaults_amended_witness :
    (clipboardImmediateCard 0
      { id := "s1", title := "Check", description := "Inspect the host",
        estimatedTime := none, responsible := none, priority := none, completed := none }
      []).responsible = "Operations Team"
    ∧ pdfMetaInfo
      { id := "s1", title := "Check", description := "Inspect the host",
        estimatedTime := none, responsible := none, priority := none, completed := none } = "" :=
  ⟨((c3_defaults_amended 0
      { id := "s1", title := "Check", description := "Inspect the host",
        estimatedTime := none, responsible := none, priority := none, completed := none }
      []).1 rfl).2.2.1,
   ((c3_defaults_amended 0
      { id := "s1", title := "Check", description := "Inspect the host",
        estimatedTime := none, responsible := none, priority := none, completed := none }
      []).2.2.2.2.1 rfl rfl rfl)⟩

/-- C4 counterexample: for a High-severity incident whose AI response fails
to parse, the SOP actually produced from the fallback content has 3 immediate
steps and 2 preventive actions — not 5 and 5 as the claim requires. -/
theorem c4_severity_counts_counterexample :
    (buildSop
      { id := "incident_1", type := "Server Down", severity := "High",
        actionsTaken := ["Restart Server"] }
      (fallbackSopData
        { id := "incident_1", type := "Server Down", severity := "High",
          actionsTaken := ["Restart Server"] }) "t").immediateSteps.length = 3
    ∧ (buildSop
      { id := "incident_1", type := "Server Down", severity := "High",
        actionsTaken := ["Restart Server"] }
      (fallbackSopData
        { id := "incident_1", type := "Server Down", severity := "High",
          actionsTaken := ["Restart Server"] }) "t").preventiveActions.length = 2
    ∧ ¬ ((buildSop
      { id := "incident_1", type := "Server Down", severity := "High",
        actionsTaken := ["Restart Server"] }
      (fallbackSopData
        { id := "incident_1", type := "Server Down", severity := "High",
          actionsTaken := ["Restart Server"] }) "t").immediateSteps.length = 5) := by
  refine ⟨by decide, by decide, by decide⟩

/-- C4 (amended): the generation prompt requests severity-scaled step counts
(High→5, Medium→4, Low→3 for each list), but the counts are not enforced on
the AI output, and the fallback SOP substituted on parse failure always has
exactly 3 immediate steps and 2 preventive actions; both fallback lists are
non-empty for every incident. -/
theorem c4_severity_counts_amended :
    stepCountRequested "High" = 5 ∧ stepCountRequested "Medium" = 4 ∧ stepCountRequested "Low" = 3
    ∧ preventiveCountRequested "High" = 5 ∧ preventiveCountRequested "Medium" = 4
    ∧ preventiveCountRequested "Low" = 3
    ∧ (∀ (inc : Incident) (now : String),
        (buildSop inc (fallbackSopData inc) now).immediateSteps.length = 3
        ∧ (buildSop inc (fallbackSopData inc) now).preventiveActions.length = 2
        ∧ (buildSop inc (fallbackSopData inc) now).immediateSteps ≠ []
        ∧ (buildSop inc (fallbackSopData inc) now).preventiveActions ≠ []) := by
  refine ⟨rfl, rfl, rfl, rfl, rfl, rfl, ?_⟩
  intro inc now
  refine ⟨rfl, rfl, ?_, ?_⟩ <;> simp [buildSop, fallbackSopData]

/-- C7: the export dispatcher rejects a request whose `sop` or `format` is
absent (or whose `format` is the empty string) with the structured 400
`Missing required parameters` error, independently of the emitters; rejects
any format token outside pdf/docx/html/clipboard with the structured 400
`Unsupported format` error; maps an emitter that throws during rendering to
the generic 500 `Export failed` error with no partial document; and on the
clipboard format returns the JSON object with the generated text. -/
theorem c7_dispatcher_errors
    (emitPdf emitDocx emitHtml : SOP → List String → Except Unit ExportResult)
    (fmtDateTime fmtDate : String → String) (req : ExportRequest) (sop : SOP)
    (fmt : String) (ocs : Option (List String)) :
    (req.sop = none →
      dispatchExport emitPdf emitDocx emitHtml fmtDateTime fmtDate req
        = .errorJson "Missing required parameters" 400)
    ∧ (req.format = none →
      dispatchExport emitPdf emitDocx emitHtml fmtDateTime fmtDate req
        = .errorJson "Missing required parameters" 400)
    ∧ (dispatchExport emitPdf emitDocx emitHtml fmtDateTime fmtDate ⟨some sop, some "", ocs⟩
        = .errorJson "Missing required parameters" 400)
    ∧ (fmt ∉ ["pdf", "docx", "html", "clipboard"] → fmt ≠ "" →
      dispatchExport emitPdf emitDocx emitHtml fmtDateTime fmtDate ⟨some sop, some fmt, ocs⟩
        = .errorJson "Unsupported format" 400)
    ∧ (emitPdf sop (ocs.getD []) = .error () →
      dispatchExport emitPdf emitDocx emitHtml fmtDateTime fmtDate ⟨some sop, some "pdf", ocs⟩
        = .errorJson "Export failed" 500)
    ∧ (emitDocx sop (ocs.getD []) = .error () →
      dispatchExport emitPdf emitDocx emitHtml fmtDateTime fmtDate ⟨some sop, some "docx", ocs⟩
        = .errorJson "Export failed" 500)
    ∧ (emitHtml sop (ocs.getD []) = .error () →
      dispatchExport emitPdf emitDocx emitHtml fmtDateTime fmtDate ⟨some sop, some "html", ocs⟩
        = .errorJson "Export failed" 500)
    ∧ (dispatchExport emitPdf emitDocx emitHtml fmtDateTime fmtDate ⟨some sop, some "clipboard", ocs⟩
        = .clipboardJson (generateClipboardText fmtDateTime fmtDate sop (ocs.getD []))) := by
  refine ⟨?_, ?_, ?_, ?_, ?_, ?_, ?_, ?_⟩
  · intro h
    rcases req with ⟨rs, rf, rc⟩
    cases rs with
    | none => rfl
    | some _ => simp at h
  · intro h
    rcases req with ⟨rs, rf, rc⟩
    cases rs with
    | none => rfl
    | some _ =>
      cases rf with
      | none => rfl
      | some _ => simp at h
  · rfl
  · intro hmem hne
    simp only [List.mem_cons, List.mem_singleton, not_or] at hmem
    obtain ⟨h1, h2, h3, h4, _⟩ := hmem
    simp [dispatchExport, hne, h1, h2, h3, h4]
  · intro h; simp [dispatchExport, h, handleEmit]
  · intro h; simp [dispatchExport, h, handleEmit]
  · intro h; simp [dispatchExport, h, handleEmit]
  · rfl

/-- C7 witness: concrete instances — a request with no SOP is rejected, an
unknown format token is rejected, a throwing PDF emitter yields the generic
export failure, and a clipboard request returns the JSON text object. -/
theorem c7_dispatcher_errors_witness :
    dispatchExport (fun _ _ => .error ()) (fun _ _ => .error ()) (fun _ _ => .error ())
      id id ⟨none, some "pdf", none⟩ = .errorJson "Missing required parameters" 400
    ∧ dispatchExport (fun _ _ => .error ()) (fun _ _ => .error ()) (fun _ _ => .error ())
      id id ⟨some sampleSop, some "xml", none⟩ = .errorJson "Unsupported format" 400
    ∧ dispatchExport (fun _ _ => .error ()) (fun _ _ => .error ()) (fun _ _ => .error ())
      id id ⟨some sampleSop, some "pdf", none⟩ = .errorJson "Export failed" 500
    ∧ dispatchExport (fun _ _ => .error ()) (fun _ _ => .error ()) (fun _ _ => .error ())
      id id ⟨some sampleSop, some "clipboard", none⟩
        = .clipboardJson (generateClipboardText id id sampleSop []) :=
  ⟨(c7_dispatcher_errors _ _ _ id id ⟨none, some "pdf", none⟩ sampleSop "pdf" none).1 rfl,
   (c7_dispatcher_errors _ _ _ id id ⟨none, some "xml", none⟩ sampleSop "xml" none).2.2.2.1
     (by decide) (by decide),
   (c7_dispatcher_errors _ _ _ id id ⟨none, some "pdf", none⟩ sampleSop "pdf" none).2.2.2.2.1 rfl,
   (c7_dispatcher_errors _ _ _ id id ⟨none, some "pdf", none⟩ sampleSop "clipboard" none).2.2.2.2.2.2.2⟩

/-- C8: for any incoming cursor, any non-negative estimated block height, any
page height and any margin with room for the reset position, the pagination
check of the PDF emitter leaves the cursor at or above
`pageHeight - margin - 15` (the bottom margin minus the footer reservation
band): either the estimated height fits in the remaining space and the cursor
is unchanged, or a page break is inserted and the cursor resets to
`margin + 10`; consequently the `addText` helper always begins rendering a
block at or above that limit. -/
theorem c8_pagination_never_below (pageHeight margin req : ℚ) (st : PdfCursor)
    (hreq : 0 ≤ req) (hroom : margin + 10 ≤ pageHeight - margin - 15) :
    ((checkPageSpace pageHeight margin req st).1.y ≤ pageHeight - margin - 15)
    ∧ ((checkPageSpace pageHeight margin req st).2 = false →
        (checkPageSpace pageHeight margin req st).1 = st
        ∧ st.y + req ≤ pageHeight - margin - 15)
    ∧ ((checkPageSpace pageHeight margin req st).2 = true →
        (checkPageSpace pageHeight margin req st).1.y = margin + 10
        ∧ (checkPageSpace pageHeight margin req st).1.page = st.page + 1)
    ∧ (∀ (numLines : Nat) (fontSize bottomSpacing : ℚ),
        0 ≤ fontSize → 0 ≤ bottomSpacing →
        (addTextCursor pageHeight margin numLines fontSize bottomSpacing st).2
          ≤ pageHeight - margin - 15) := by
  have key : ∀ r : ℚ, 0 ≤ r →
      (checkPageSpace pageHeight margin r st).1.y ≤ pageHeight - margin - 15 := by
    intro r hr
    unfold checkPageSpace
    split
    · simpa using hroom
    · next h =>
      push_neg at h
      simp only
      linarith
  refine ⟨key req hreq, ?_, ?_, ?_⟩
  · intro hb
    unfold checkPageSpace at hb ⊢
    by_cases hc : st.y + req > pageHeight - margin - 15
    · rw [if_pos hc] at hb; simp at hb
    · rw [if_neg hc] at hb ⊢
      push_neg at hc
      exact ⟨rfl, hc⟩
  · intro hb
    unfold checkPageSpace at hb ⊢
    by_cases hc : st.y + req > pageHeight - margin - 15
    · rw [if_pos hc]
      exact ⟨rfl, rfl⟩
    · rw [if_neg hc] at hb
      simp at hb
  · intro numLines fontSize bottomSpacing hf hb
    have hline : 0 ≤ fontSize * (2 / 5) + 2 := by linarith
    have htot : 0 ≤ (numLines : ℚ) * (fontSize * (2 / 5) + 2) := by positivity
    have := key ((numLines : ℚ) * (fontSize * (2 / 5) + 2) + bottomSpacing) (by linarith)
    simpa [addTextCursor] using this

/-- C8 witness: a concrete block that does not fit (cursor at 250 mm, 20 mm
needed on an A4 page with 20 mm margins) still begins at or above the
262 mm limit. -/
theorem c8_pagination_never_below_witness :
    (0 : ℚ) ≤ 20 ∧ (20 : ℚ) + 10 ≤ 297 - 20 - 15
    ∧ (checkPageSpace 297 20 20 ⟨1, 250⟩).1.y ≤ 297 - 20 - 15 :=
  ⟨by norm_num, by norm_num,
   (c8_pagination_never_below 297 20 20 ⟨1, 250⟩ (by norm_num) (by norm_num)).1⟩

/-- C9: for every oracle modelling the generative service, the SOP-generation
route's call is exactly a first-success walk through its fixed ordered model
list — the singleton `["gemini-2.5-flash"]` — and when every model in that
list fails the endpoint terminates with the surfaced error (no fallback SOP,
no retry); when the single model succeeds the endpoint builds the SOP from
the parsed or fallback content. -/
theorem c9_model_list_terminal (oracle : String → Option String)
    (parse : String → Option SOPData) (inc : Incident) (now : String) :
    sopGenerationModelCall oracle = tryModelsInOrder oracle ["gemini-2.5-flash"]
    ∧ (oracle "gemini-2.5-flash" = none →
        generateSopEndpoint oracle parse inc now = .fail)
    ∧ (∀ t : String, oracle "gemini-2.5-flash" = some t →
        generateSopEndpoint oracle parse inc now
          = .ok (buildSop inc ((parse t).getD (fallbackSopData inc)) now)) := by
  refine ⟨?_, ?_, ?_⟩
  · cases h : oracle "gemini-2.5-flash" <;>
      simp [sopGenerationModelCall, tryModelsInOrder, h]
  · intro h
    simp [generateSopEndpoint, sopGenerationModelCall, h]
  · intro t h
    simp [generateSopEndpoint, sopGenerationModelCall, h]

/-- C9 witness: with an oracle on which every model fails, a concrete
generation request terminates with the surfaced error. -/
theorem c9_model_list_terminal_witness :
    generateSopEndpoint (fun _ => none) (fun _ => none)
      { id := "incident_1", type := "Server Down", severity := "High",
        actionsTaken := ["Restart Server"] } "2025-01-01T00:00:00.000Z" = .fail :=
  (c9_model_list_terminal (fun _ => none) (fun _ => none)
      { id := "incident_1", type := "Server Down", severity := "High",
        actionsTaken := ["Restart Server"] } "2025-01-01T00:00:00.000Z").2.1 rfl

/-- C2 witness: the amended filename rule instantiated at the sample SOP. -/
theorem c2_sanitize_amended_witness :
    docxFilename sampleSop = sanitizeTitle sampleSop.title ++ ".docx" :=
  c2_sanitize_amended.2.1 sampleSop

/-- C4 witness: the amended step-count facts instantiated at a concrete
High-severity incident. -/
theorem c4_severity_counts_amended_witness :
    (buildSop
      { id := "incident_1", type := "Server Down", severity := "High",
        actionsTaken := ["Restart Server"] }
      (fallbackSopData
        { id := "incident_1", type := "Server Down", severity := "High",
          actionsTaken := ["Restart Server"] }) "2025-01-01").immediateSteps.length = 3 :=
  (c4_severity_counts_amended.2.2.2.2.2.2
    { id := "incident_1", type := "Server Down", severity := "High",
      actionsTaken := ["Restart Server"] } "2025-01-01").1

/-- C5 witness: the HTML and clipboard card contents agree at a concrete
step with absent optional fields. -/
theorem c5_html_clipboard_content_agree_witness :
    htmlImmediateCard 0
      { id := "s1", title := "Check", description := "Inspect the host",
        estimatedTime := none, responsible := none, priority := none, completed := none } []
    = clipboardImmediateCard 0
      { id := "s1", title := "Check", description := "Inspect the host",
        estimatedTime := none, responsible := none, priority := none, completed := none } [] :=
  (c5_html_clipboard_content_agree 0
    { id := "s1", title := "Check", description := "Inspect the host",
      estimatedTime := none, responsible := none, priority := none, completed := none } []).1

/-- C10 witness: omitting `completedSteps` and passing the explicit empty
list produce the same dispatcher response on a concrete clipboard request. -/
theorem c10_missing_completed_steps_witness :
    dispatchExport (fun _ _ => .error ()) (fun _ _ => .error ()) (fun _ _ => .error ())
      id id ⟨some sampleSop, some "clipboard", none⟩
    = dispatchExport (fun _ _ => .error ()) (fun _ _ => .error ()) (fun _ _ => .error ())
      id id ⟨some sampleSop, some "clipboard", some []⟩ :=
  (c10_missing_completed_steps (fun _ _ => .error ()) (fun _ _ => .error ()) (fun _ _ => .error ())
    id id (some sampleSop) (some "clipboard") 0
    { id := "s1", title := "Check", description := "Inspect the host",
      estimatedTime := none, responsible := none, priority := none, completed := none } "p").1
